import Mathlib

/-!
Verification development for the `blokken5` three-band resonant filter.

The audio-rate code lives in `src/audio/ThreeSistersSVF.js`: an
`AudioWorkletProcessor` (`ThreeSistersSVFProcessor`) holding three
state-variable filter cores, wrapped by a Tone.js facade class
(`ThreeSistersSVF`).  A portable fallback (`SimpleThreeBandFilter`)
builds three independent bandpass stages.

Numbers: the JavaScript engine computes with IEEE doubles.  We embed the
arithmetic exactly, over a linear ordered field (instantiated at `ℚ` for
executable checks and at `ℝ` where the transcendental `Math.sin` matters).
The one transcendental call, `Math.sin(Math.PI * f / sr)`, is abstracted
as a function parameter `sinPi` with intended meaning `t ↦ sin (π * t)`
applied to `f / sr`; at `ℝ` we instantiate it with `Real.sin (Real.pi * t)`.
-/

namespace Blokken5

/-- Band integrator state of `ThreeSistersSVFProcessor`: the fields
`_lowS1 _lowS2 _centreS1 _centreS2 _highS1 _highS2` (constructor,
lines 64-66 of the worklet source). `s1` is the band-pass accumulator,
`s2` the low-pass accumulator of each core. -/
structure BandStates (α : Type) where
  lowS1 : α
  lowS2 : α
  centreS1 : α
  centreS2 : α
  highS1 : α
  highS2 : α
deriving DecidableEq

/-- Full mutable state of `ThreeSistersSVFProcessor`: band states plus the
cached coefficients `_lowAlpha1 _centreAlpha1 _highAlpha1 _alpha2`, the
parameters `_feedback _span _centreFreq`, the captured `_sampleRate` and
the dirty flag `_recalc`. -/
structure PState (α : Type) where
  bands : BandStates α
  lowAlpha1 : α
  centreAlpha1 : α
  highAlpha1 : α
  alpha2 : α
  feedback : α
  span : α
  centreFreq : α
  sampleRate : α
  recalc : Bool
deriving DecidableEq

/-- Constructor state of the processor (lines 64-84): zero band state,
zero cached alpha1 coefficients, `_alpha2 = 1/8` (default Q of 8),
`_feedback = 0.05`, `_span = 300`, `_centreFreq = 600`, dirty flag set. -/
def initState {α : Type} [LinearOrderedField α] (sampleRate : α) : PState α :=
  { bands := ⟨0, 0, 0, 0, 0, 0⟩
    lowAlpha1 := 0
    centreAlpha1 := 0
    highAlpha1 := 0
    alpha2 := 1 / 8
    feedback := 1 / 20
    span := 300
    centreFreq := 600
    sampleRate := sampleRate
    recalc := true }

/-- Shape of an `{ type: 'update', center?, span?, q?, feedback? }` message
posted to the processor port; absent fields are `none`. -/
structure UpdateMsg (α : Type) where
  type : String
  center : Option α
  span : Option α
  q : Option α
  feedback : Option α
deriving DecidableEq

/-- The `port.onmessage` handler installed in the processor constructor
(lines 87-97): on a message of type `'update'`, each present field is
written to the corresponding parameter (`q` is stored as
`_alpha2 = 1 / Math.max(0.0001, q)`) and the coefficients are marked
dirty. -/
def onMessage {α : Type} [LinearOrderedField α] (s : PState α) (data : UpdateMsg α) :
    PState α :=
  if data.type = "update" then
    let s1 := match data.center with
      | some v => { s with centreFreq := v }
      | none => s
    let s2 := match data.span with
      | some v => { s1 with span := v }
      | none => s1
    let s3 := match data.q with
      | some v => { s2 with alpha2 := 1 / max (1 / 10000) v }
      | none => s2
    let s4 := match data.feedback with
      | some v => { s3 with feedback := v }
      | none => s3
    { s4 with recalc := true }
  else
    s

/-- Result of the frequency-clamping part of `_updateCoefficients`
(lines 106-109). -/
structure BandFreqs (α : Type) where
  lowF : α
  centre : α
  highF : α
deriving DecidableEq

/-- Frequency clamping of `_updateCoefficients` (lines 106-109):
`nyq = sampleRate * 0.45`; `centre = min(nyq, max(20, centreFreq))`;
`lowF = min(nyq, max(20, centre - span))`;
`highF = min(nyq, max(20, centre + span))`.  Note the low and high bands
are offset from the already-clamped `centre`, not from the raw
`centreFreq`. -/
def bandFreqs {α : Type} [LinearOrderedField α] (sampleRate centreFreq span : α) :
    BandFreqs α :=
  let nyq := sampleRate * (9 / 20)
  let centre := min nyq (max 20 centreFreq)
  let lowF := min nyq (max 20 (centre - span))
  let highF := min nyq (max 20 (centre + span))
  ⟨lowF, centre, highF⟩

/-- Method `_updateCoefficients` (lines 105-115): recompute the three
alpha1 coefficients as `2 * Math.sin(Math.PI * f / sampleRate)` on the
clamped band frequencies and clear the dirty flag.  The sine is taken
through the abstract `sinPi` parameter applied to `f / sampleRate`. -/
def updateCoefficients {α : Type} [LinearOrderedField α] (sinPi : α → α)
    (s : PState α) : PState α :=
  let f := bandFreqs s.sampleRate s.centreFreq s.span
  { s with
    lowAlpha1 := 2 * sinPi (f.lowF / s.sampleRate)
    centreAlpha1 := 2 * sinPi (f.centre / s.sampleRate)
    highAlpha1 := 2 * sinPi (f.highF / s.sampleRate)
    recalc := false }

/-- One iteration of the per-sample loop of `process` (lines 149-185),
given the block-constant local copies of the coefficients and feedback.
The JavaScript updates the local band variables sequentially, but all
three drives are computed before any band is updated and each core reads
only its own pre-update `s1`/`s2`, so the simultaneous record below is
the exact same function.  Returns the new band states and the output
sample `(lowBP + centreBP + highBP) / 3`. -/
def sampleStep {α : Type} [LinearOrderedField α]
    (lowA centreA highA alpha2 fb : α) (st : BandStates α) (x : α) :
    BandStates α × α :=
  let sumBP := st.lowS1 + st.centreS1 + st.highS1
  let sharedDrive := x + sumBP * fb
  let driveLow := sharedDrive + st.highS1 * fb
  let driveCentre := sharedDrive + st.lowS1 * fb
  let driveHigh := sharedDrive + st.centreS1 * fb
  let hpLow := driveLow - st.lowS2 - alpha2 * st.lowS1
  let bpLow := lowA * hpLow + st.lowS1
  let lpLow := lowA * bpLow + st.lowS2
  let hpCentre := driveCentre - st.centreS2 - alpha2 * st.centreS1
  let bpCentre := centreA * hpCentre + st.centreS1
  let lpCentre := centreA * bpCentre + st.centreS2
  let hpHigh := driveHigh - st.highS2 - alpha2 * st.highS1
  let bpHigh := highA * hpHigh + st.highS1
  let lpHigh := highA * bpHigh + st.highS2
  (⟨bpLow, lpLow, bpCentre, lpCentre, bpHigh, lpHigh⟩,
    (bpLow + bpCentre + bpHigh) / 3)

/-- The whole per-sample loop of `process` over an input channel:
threads the band states through `sampleStep` and collects the output
samples written to `outCh`. -/
def runSamples {α : Type} [LinearOrderedField α]
    (lowA centreA highA alpha2 fb : α) :
    BandStates α → List α → BandStates α × List α
  | st, [] => (st, [])
  | st, x :: xs =>
    let r := sampleStep lowA centreA highA alpha2 fb st x
    let rest := runSamples lowA centreA highA alpha2 fb r.1 xs
    (rest.1, r.2 :: rest.2)

/-- The k-rate `parameters` record handed to `process` by the host for the
four descriptors `center`, `span`, `q`, `feedback`.  The processor never
reads it. -/
structure Params (α : Type) where
  center : α
  span : α
  q : α
  feedback : α
deriving DecidableEq

/-- One AudioParam descriptor from `parameterDescriptors` (lines 51-56). -/
structure ParamDescriptor where
  name : String
  defaultValue : ℚ
  minValue : ℚ
  maxValue : ℚ
  automationRate : String
deriving DecidableEq

/-- The static `parameterDescriptors` list (lines 51-56). -/
def parameterDescriptors : List ParamDescriptor :=
  [⟨"center", 600, 20, 20000, "k-rate"⟩,
   ⟨"span", 300, 0, 10000, "k-rate"⟩,
   ⟨"q", 8, 1 / 10, 100, "k-rate"⟩,
   ⟨"feedback", 1 / 20, 0, 1, "k-rate"⟩]

/-- Method `process` (lines 124-194).  `input` models `inputs[0]` (absent
when undefined), a list of channels; the processor reads only channel 0.
If the input is missing or has no channels it returns `true` immediately
with no state change.  Otherwise, if the dirty flag is set, coefficients
are recomputed once, before the loop; then the sample loop runs with the
block-constant local copies, and the updated band states are stored back.
Returns the new state, the samples written to `outCh`, and the boolean
keep-alive result. -/
def process {α : Type} [LinearOrderedField α] (sinPi : α → α) (s : PState α)
    (input : Option (List (List α))) (_parameters : Params α) :
    PState α × List α × Bool :=
  match input with
  | none => (s, [], true)
  | some [] => (s, [], true)
  | some (inCh :: _) =>
    let s1 := if s.recalc then updateCoefficients sinPi s else s
    let r := runSamples s1.lowAlpha1 s1.centreAlpha1 s1.highAlpha1
      s1.alpha2 s1.feedback s1.bands inCh
    ({ s1 with bands := r.1 }, r.2, true)

/-- The `_options` record of the `ThreeSistersSVF` facade class
(lines 219-226): construction defaults `center=600`, `span=300`, `q=8`,
`feedback=0.05`, merged with caller options and thereafter mutated only
by the property setters. -/
structure FacadeOptions where
  center : ℚ
  span : ℚ
  q : ℚ
  feedback : ℚ
deriving DecidableEq

/-- Observable state of a `ThreeSistersSVF` facade instance: its
`_options` record and whether `_workletNode` is non-null.  The facade
layer performs no transcendental arithmetic, so we model it over `ℚ`. -/
structure Facade where
  options : FacadeOptions
  workletNode : Bool
deriving DecidableEq

/-- The construction defaults of `ThreeSistersSVF` (lines 219-224). -/
def defaultOptions : FacadeOptions := ⟨600, 300, 8, 1 / 20⟩

/-- A facade in the Ready state: `_initWorklet` has resolved and
`_workletNode` exists. -/
def readyFacade : Facade := ⟨defaultOptions, true⟩

namespace ThreeSistersSVF

/-- Getter `center` (lines 283-285): returns `_options.center` as stored,
with no clamping. -/
def center (f : Facade) : ℚ := f.options.center

/-- Getter `span` (lines 298-300). -/
def span (f : Facade) : ℚ := f.options.span

/-- Getter `q` (lines 314-316). -/
def q (f : Facade) : ℚ := f.options.q

/-- Getter `feedback` (lines 330-332). -/
def feedback (f : Facade) : ℚ := f.options.feedback

/-- Setter `center` (lines 286-292): stores the raw value into
`_options.center` and, when `_workletNode` is non-null, posts an
`{ type: 'update', center: value }` message (it also writes the k-rate
AudioParam, which the processor never reads).  Returns the new facade
state and the list of messages posted during the call. -/
def setCenter (f : Facade) (v : ℚ) : Facade × List (UpdateMsg ℚ) :=
  ({ f with options := { f.options with center := v } },
   if f.workletNode then [⟨"update", some v, none, none, none⟩] else [])

/-- Setter `span` (lines 301-307). -/
def setSpan (f : Facade) (v : ℚ) : Facade × List (UpdateMsg ℚ) :=
  ({ f with options := { f.options with span := v } },
   if f.workletNode then [⟨"update", none, some v, none, none⟩] else [])

/-- Setter `q` (lines 317-323). -/
def setQ (f : Facade) (v : ℚ) : Facade × List (UpdateMsg ℚ) :=
  ({ f with options := { f.options with q := v } },
   if f.workletNode then [⟨"update", none, none, some v, none⟩] else [])

/-- Setter `feedback` (lines 333-339). -/
def setFeedback (f : Facade) (v : ℚ) : Facade × List (UpdateMsg ℚ) :=
  ({ f with options := { f.options with feedback := v } },
   if f.workletNode then [⟨"update", none, none, none, some v⟩] else [])

/-- Method `dispose` (lines 356-364): when `_workletNode` is non-null,
posts `{ type: 'update', feedback: 0 }`, disconnects, and nulls the
node; afterwards `_workletNode` is null either way. -/
def dispose (f : Facade) : Facade × List (UpdateMsg ℚ) :=
  if f.workletNode then
    ({ f with workletNode := false }, [⟨"update", none, none, none, some 0⟩])
  else
    ({ f with workletNode := false }, [])

end ThreeSistersSVF

/-- The `_options` record of the fallback `SimpleThreeBandFilter`
(defaults `center=600`, `span=300`, `q=8`; it has no feedback field). -/
structure SimpleOptions where
  center : ℚ
  span : ℚ
  q : ℚ
deriving DecidableEq

/-- Observable state of a `SimpleThreeBandFilter` instance: its options,
the sample rate of the resolved base audio context when one is found, and
the frequency / Q values currently written to the three Tone.Filter
stages. -/
structure SimpleFilter where
  options : SimpleOptions
  sampleRate : Option ℚ
  lowFreq : ℚ
  centreFreq : ℚ
  highFreq : ℚ
  lowQ : ℚ
  centreQ : ℚ
  highQ : ℚ
deriving DecidableEq

namespace SimpleThreeBandFilter

/-- Method `_updateFrequencies` of `SimpleThreeBandFilter` (lines 78-88):
`nyquist = raw.sampleRate / 2` when a base context with a truthy sample
rate resolves, else `20000`; `centre = min(nyquist, max(20, center))`;
`span = max(0, span)`; `low = max(20, centre - span)`;
`high = min(nyquist, centre + span)`; the results are written to the
three stages' frequency AudioParams. -/
def updateFrequencies (f : SimpleFilter) : SimpleFilter :=
  let nyquist := match f.sampleRate with
    | some sr => if sr = 0 then 20000 else sr / 2
    | none => 20000
  let centre := min nyquist (max 20 f.options.center)
  let sp := max 0 f.options.span
  let low := max 20 (centre - sp)
  let high := min nyquist (centre + sp)
  { f with lowFreq := low, centreFreq := centre, highFreq := high }

/-- Method `_updateQ` (lines 90-95): every stage receives resonance
`Math.max(0.5, q)`. -/
def updateQ (f : SimpleFilter) : SimpleFilter :=
  let qv := max (1 / 2) f.options.q
  { f with lowQ := qv, centreQ := qv, highQ := qv }

/-- Getter `center` (lines 49-51). -/
def center (f : SimpleFilter) : ℚ := f.options.center

/-- Getter `span` (lines 57-59). -/
def span (f : SimpleFilter) : ℚ := f.options.span

/-- Getter `q` (lines 65-67). -/
def q (f : SimpleFilter) : ℚ := f.options.q

/-- Setter `center` (lines 52-55): stores the raw value, then
`_updateFrequencies`. -/
def setCenter (f : SimpleFilter) (v : ℚ) : SimpleFilter :=
  updateFrequencies { f with options := { f.options with center := v } }

/-- Setter `span` (lines 60-63). -/
def setSpan (f : SimpleFilter) (v : ℚ) : SimpleFilter :=
  updateFrequencies { f with options := { f.options with span := v } }

/-- Setter `q` (lines 68-71): stores the raw value, then `_updateQ`. -/
def setQ (f : SimpleFilter) (v : ℚ) : SimpleFilter :=
  updateQ { f with options := { f.options with q := v } }

end SimpleThreeBandFilter

/-- Real-number instantiation of the abstract sine parameter:
`mathSinPi t = sin (π * t)`, so that `2 * mathSinPi (f / sr)` is exactly
the worklet's `2 * Math.sin(Math.PI * f / sr)`. -/
noncomputable def mathSinPi : ℝ → ℝ := fun t => Real.sin (Real.pi * t)

/-- Processor state exercising the stability property at a failing
input: parameters delivered through the actual message path — centre
8000 Hz, span 0, q = 0.5 (stored as `alpha2 = 2`), feedback = 0, at
sample rate 48000 — together with the finite band state
(s1, s2) = (1, 0) in every band. -/
noncomputable def c8State : PState ℝ :=
  { onMessage (initState 48000)
      ⟨"update", some 8000, some 0, some (1 / 2), some 0⟩ with
    bands := ⟨1, 0, 1, 0, 1, 0⟩ }

/-- Modelled from the spec (§3 invariants, for the round-trip claim of
§8): the safe operating range of the centre frequency is
`[20 Hz, 0.45 * sampleRate]`, so clamping a requested centre value means
`min (0.45 * sampleRate) (max 20 v)`.  The source facade never applies
this clamp; this definition exists to compare the spec's claimed getter
value with the source's. -/
def centerSafeClampSpec (sampleRate v : ℚ) : ℚ :=
  min (sampleRate * (9 / 20)) (max 20 v)

/-- C1: each input sample x is processed by forming
`sharedDrive = x + fb * (lowS1 + centreS1 + highS1)` from the pre-update
s1 values, per-band drives `driveLow = sharedDrive + highS1 * fb`,
`driveCentre = sharedDrive + lowS1 * fb`,
`driveHigh = sharedDrive + centreS1 * fb` (all from pre-update s1
values), then each band computes `hp = drive - s2 - alpha2 * s1`,
`bp = alpha1 * hp + s1`, `lp = alpha1 * bp + s2` with `s1 := bp`,
`s2 := lp`, and the output sample is `(lowBP + centreBP + highBP) / 3`. -/
theorem c1_per_sample_difference_equations
    (lowA centreA highA alpha2 fb : ℝ) (st : BandStates ℝ) (x : ℝ) :
    sampleStep lowA centreA highA alpha2 fb st x =
      (let sharedDrive := x + fb * (st.lowS1 + st.centreS1 + st.highS1)
       let driveLow := sharedDrive + st.highS1 * fb
       let driveCentre := sharedDrive + st.lowS1 * fb
       let driveHigh := sharedDrive + st.centreS1 * fb
       let bpLow := lowA * (driveLow - st.lowS2 - alpha2 * st.lowS1) + st.lowS1
       let lpLow := lowA * bpLow + st.lowS2
       let bpCentre :=
         centreA * (driveCentre - st.centreS2 - alpha2 * st.centreS1) + st.centreS1
       let lpCentre := centreA * bpCentre + st.centreS2
       let bpHigh := highA * (driveHigh - st.highS2 - alpha2 * st.highS1) + st.highS1
       let lpHigh := highA * bpHigh + st.highS2
       (⟨bpLow, lpLow, bpCentre, lpCentre, bpHigh, lpHigh⟩,
        (bpLow + bpCentre + bpHigh) / 3)) := by
  simp only [sampleStep, Prod.mk.injEq, BandStates.mk.injEq]
  refine ⟨⟨?_, ?_, ?_, ?_, ?_, ?_⟩, ?_⟩ <;> ring

/-- Splitting the per-sample loop: processing a concatenated channel is
the same as processing the two halves in sequence, threading the band
state, because the loop body depends only on the block-constant
coefficients and the running state. -/
theorem runSamples_append {α : Type} [LinearOrderedField α]
    (lowA centreA highA alpha2 fb : α) (st : BandStates α) (xs ys : List α) :
    runSamples lowA centreA highA alpha2 fb st (xs ++ ys) =
      ((runSamples lowA centreA highA alpha2 fb
          (runSamples lowA centreA highA alpha2 fb st xs).1 ys).1,
       (runSamples lowA centreA highA alpha2 fb st xs).2 ++
         (runSamples lowA centreA highA alpha2 fb
           (runSamples lowA centreA highA alpha2 fb st xs).1 ys).2) := by
  induction xs generalizing st with
  | nil => simp [runSamples]
  | cons x xs ih => simp [runSamples, ih]

/-- C5: configuration-update messages only mark the coefficients dirty;
`process` clears the dirty flag (recomputing at most once, before the
per-sample loop), the coefficients stored after a block are exactly the
once-recomputed ones, and a block behaves identically to two half-blocks
processed in sequence — i.e. the coefficients are block-constant and are
never recomputed mid-block. -/
theorem c5_coefficients_recomputed_at_block_boundary (sinPi : ℝ → ℝ)
    (s : PState ℝ) (c sp qv fb : Option ℝ) (ch1 ch2 : List ℝ)
    (rest : List (List ℝ)) (pars : Params ℝ) :
    (onMessage s ⟨"update", c, sp, qv, fb⟩).recalc = true ∧
    (process sinPi s (some (ch1 :: rest)) pars).1.recalc = false ∧
    (process sinPi s (some (ch1 :: rest)) pars).1.lowAlpha1 =
      (if s.recalc then updateCoefficients sinPi s else s).lowAlpha1 ∧
    (process sinPi s (some (ch1 :: rest)) pars).1.centreAlpha1 =
      (if s.recalc then updateCoefficients sinPi s else s).centreAlpha1 ∧
    (process sinPi s (some (ch1 :: rest)) pars).1.highAlpha1 =
      (if s.recalc then updateCoefficients sinPi s else s).highAlpha1 ∧
    (process sinPi s (some (ch1 :: rest)) pars).1.alpha2 =
      (if s.recalc then updateCoefficients sinPi s else s).alpha2 ∧
    process sinPi s (some ((ch1 ++ ch2) :: rest)) pars =
      ((process sinPi (process sinPi s (some (ch1 :: rest)) pars).1
          (some (ch2 :: rest)) pars).1,
       (process sinPi s (some (ch1 :: rest)) pars).2.1 ++
         (process sinPi (process sinPi s (some (ch1 :: rest)) pars).1
           (some (ch2 :: rest)) pars).2.1,
       true) := by
  refine ⟨?_, ?_, ?_, ?_, ?_, ?_, ?_⟩
  · cases c <;> cases sp <;> cases qv <;> cases fb <;> simp [onMessage]
  all_goals
    by_cases h : s.recalc <;>
      simp [process, updateCoefficients, h, runSamples_append]

/-- C6: an `{ type: 'update' }` message changes exactly the parameters
whose fields are present (q through `alpha2 = 1 / max (0.0001) q`);
every parameter whose field is absent, and all other processor state
except the dirty flag, retains its previous value. -/
theorem c6_partial_update_frame (s : PState ℝ) (c sp qv fb : Option ℝ) :
    (onMessage s ⟨"update", c, sp, qv, fb⟩).centreFreq = c.getD s.centreFreq ∧
    (onMessage s ⟨"update", c, sp, qv, fb⟩).span = sp.getD s.span ∧
    (onMessage s ⟨"update", c, sp, qv, fb⟩).alpha2 =
      (match qv with
        | some v => 1 / max (1 / 10000) v
        | none => s.alpha2) ∧
    (onMessage s ⟨"update", c, sp, qv, fb⟩).feedback = fb.getD s.feedback ∧
    (onMessage s ⟨"update", c, sp, qv, fb⟩).bands = s.bands ∧
    (onMessage s ⟨"update", c, sp, qv, fb⟩).lowAlpha1 = s.lowAlpha1 ∧
    (onMessage s ⟨"update", c, sp, qv, fb⟩).centreAlpha1 = s.centreAlpha1 ∧
    (onMessage s ⟨"update", c, sp, qv, fb⟩).highAlpha1 = s.highAlpha1 ∧
    (onMessage s ⟨"update", c, sp, qv, fb⟩).sampleRate = s.sampleRate := by
  cases c <;> cases sp <;> cases qv <;> cases fb <;>
    simp [onMessage, Option.getD]

/-- C2 counterexample: the claim fails on the code in two ways.  At
`sr = 48000`, `centerFreq = 30000`, `span = 10000` the code's low band is
`clamp(clampedCentre - span) = 11600`, not the claimed
`clamp(centerFreq - span) = 20000` (the code subtracts the span from the
already-clamped centre).  And at `span = -400` (the worklet never clamps
span) the code yields `low = 1000 > centre = 600`, breaking the claimed
ordering `low ≤ centre`. -/
theorem c2_counterexample :
    (bandFreqs (48000 : ℚ) 30000 10000).lowF = 11600 ∧
    min ((48000 : ℚ) * (9 / 20)) (max 20 (30000 - 10000)) = 20000 ∧
    ((11600 : ℚ) ≠ 20000) ∧
    (bandFreqs (48000 : ℚ) 600 (-400)).lowF = 1000 ∧
    (bandFreqs (48000 : ℚ) 600 (-400)).centre = 600 ∧
    ¬((bandFreqs (48000 : ℚ) 600 (-400)).lowF ≤
        (bandFreqs (48000 : ℚ) 600 (-400)).centre) := by
  refine ⟨?_, ?_, ?_, ?_, ?_, ?_⟩ <;> norm_num [bandFreqs]

/-- C2 (amended): the code's band frequencies are
`centre = clamp(centerFreq, 20, 0.45*sr)`,
`low = clamp(centre - span, 20, 0.45*sr)`,
`high = clamp(centre + span, 20, 0.45*sr)` (low/high offset from the
clamped centre, not the raw centerFreq); and whenever `span ≥ 0` and
`20 ≤ 0.45*sr`, they satisfy
`20 ≤ low ≤ centre ≤ high ≤ 0.45*sampleRate`. -/
theorem c2_band_frequency_clamp_amended {α : Type} [LinearOrderedField α]
    (sr c sp : α) (hsp : 0 ≤ sp) (hnyq : (20 : α) ≤ sr * (9 / 20)) :
    (bandFreqs sr c sp).centre = min (sr * (9 / 20)) (max 20 c) ∧
    (bandFreqs sr c sp).lowF =
      min (sr * (9 / 20)) (max 20 ((bandFreqs sr c sp).centre - sp)) ∧
    (bandFreqs sr c sp).highF =
      min (sr * (9 / 20)) (max 20 ((bandFreqs sr c sp).centre + sp)) ∧
    (20 : α) ≤ (bandFreqs sr c sp).lowF ∧
    (bandFreqs sr c sp).lowF ≤ (bandFreqs sr c sp).centre ∧
    (bandFreqs sr c sp).centre ≤ (bandFreqs sr c sp).highF ∧
    (bandFreqs sr c sp).highF ≤ sr * (9 / 20) := by
  simp only [bandFreqs]
  have h20c : (20 : α) ≤ min (sr * (9 / 20)) (max 20 c) :=
    le_min hnyq (le_max_left _ _)
  have hsub : min (sr * (9 / 20)) (max 20 c) - sp ≤ min (sr * (9 / 20)) (max 20 c) :=
    sub_le_self _ hsp
  refine ⟨trivial, trivial, trivial, ?_, ?_, ?_, ?_⟩
  · exact le_min hnyq (le_max_left _ _)
  · exact (min_le_right _ _).trans (max_le h20c hsub)
  · exact le_min (min_le_left _ _)
      ((le_add_of_nonneg_right hsp).trans (le_max_right _ _))
  · exact min_le_left _ _

/-- C2 witness: at `sr = 48000`, `centerFreq = 600`, `span = 300` the
hypotheses hold and the bands come out as `low = 300`, `centre = 600`,
`high = 900` in order. -/
theorem c2_witness :
    (0 : ℚ) ≤ 300 ∧ (20 : ℚ) ≤ 48000 * (9 / 20) ∧
    (bandFreqs (48000 : ℚ) 600 300).lowF ≤ (bandFreqs (48000 : ℚ) 600 300).centre ∧
    (bandFreqs (48000 : ℚ) 600 300).lowF = 300 ∧
    (bandFreqs (48000 : ℚ) 600 300).centre = 600 ∧
    (bandFreqs (48000 : ℚ) 600 300).highF = 900 :=
  ⟨by norm_num, by norm_num,
   (c2_band_frequency_clamp_amended (48000 : ℚ) 600 300 (by norm_num)
     (by norm_num)).2.2.2.2.1,
   by norm_num [bandFreqs], by norm_num [bandFreqs], by norm_num [bandFreqs]⟩

/-- C7: a `process` call with `inputs[0]` absent or holding no channels
returns `true` (not an error), writes no output samples, and leaves the
entire processor state — in particular all six band accumulators and the
cached coefficients — unchanged. -/
theorem c7_empty_input_no_mutation (sinPi : ℝ → ℝ) (s : PState ℝ)
    (pars : Params ℝ) :
    process sinPi s none pars = (s, [], true) ∧
    process sinPi s (some []) pars = (s, [], true) :=
  ⟨rfl, rfl⟩

/-- C3 counterexample: the real-time core's minimum for q is `0.0001`,
not the claimed `0.1`.  Updating `q = 0.01` makes the code store
`alpha2 = 1 / max(0.0001, 0.01) = 100`, while the claim's formula
`1 / max(0.01, 0.1)` gives `10`. -/
theorem c3_counterexample :
    (onMessage (initState (48000 : ℚ))
        ⟨"update", none, none, some (1 / 100), none⟩).alpha2 = 100 ∧
    ((1 : ℚ) / max (1 / 10) (1 / 100) = 10) ∧
    ((100 : ℚ) ≠ 10) := by
  refine ⟨?_, ?_, ?_⟩ <;> norm_num [onMessage, initState]

/-- C3 (amended): every q update makes the real-time core store the
shared damping `alpha2 = 1 / max(0.0001, q)` — its qMin is `0.0001`, not
`0.1` — while each stage of the fallback bank receives resonance
`max(0.5, q)` as claimed. -/
theorem c3_q_minimum_amended (s : PState ℝ) (c sp fb : Option ℝ) (v : ℝ)
    (g : SimpleFilter) (w : ℚ) :
    (onMessage s ⟨"update", c, sp, some v, fb⟩).alpha2 = 1 / max (1 / 10000) v ∧
    (SimpleThreeBandFilter.setQ g w).lowQ = max (1 / 2) w ∧
    (SimpleThreeBandFilter.setQ g w).centreQ = max (1 / 2) w ∧
    (SimpleThreeBandFilter.setQ g w).highQ = max (1 / 2) w := by
  refine ⟨?_, ?_, ?_, ?_⟩
  · cases c <;> cases sp <;> cases fb <;> simp [onMessage]
  all_goals simp [SimpleThreeBandFilter.setQ, SimpleThreeBandFilter.updateQ]

/-- C4 counterexample: the facade setters store the raw value and the
getters return it unclamped.  After `setCenter(-5)` the getter returns
`-5`, while the claimed clamp into the safe operating range
`[20, 0.45 * sampleRate]` would give `20`. -/
theorem c4_counterexample :
    ThreeSistersSVF.center (ThreeSistersSVF.setCenter readyFacade (-5)).1 = -5 ∧
    centerSafeClampSpec 48000 (-5) = 20 ∧
    ((-5 : ℚ) ≠ 20) := by
  refine ⟨rfl, ?_, ?_⟩ <;> norm_num [centerSafeClampSpec]

/-- C4 (amended): for every value v and each of the four facade
parameters (and the three fallback parameters), setting the parameter to
v makes the corresponding getter return exactly v, unclamped; clamping
happens only later, inside the coefficient computation. -/
theorem c4_setter_roundtrip_amended (f : Facade) (g : SimpleFilter) (v : ℚ) :
    ThreeSistersSVF.center (ThreeSistersSVF.setCenter f v).1 = v ∧
    ThreeSistersSVF.span (ThreeSistersSVF.setSpan f v).1 = v ∧
    ThreeSistersSVF.q (ThreeSistersSVF.setQ f v).1 = v ∧
    ThreeSistersSVF.feedback (ThreeSistersSVF.setFeedback f v).1 = v ∧
    SimpleThreeBandFilter.center (SimpleThreeBandFilter.setCenter g v) = v ∧
    SimpleThreeBandFilter.span (SimpleThreeBandFilter.setSpan g v) = v ∧
    SimpleThreeBandFilter.q (SimpleThreeBandFilter.setQ g v) = v := by
  refine ⟨rfl, rfl, rfl, rfl, ?_, ?_, ?_⟩ <;>
    simp [SimpleThreeBandFilter.center, SimpleThreeBandFilter.span,
      SimpleThreeBandFilter.q, SimpleThreeBandFilter.setCenter,
      SimpleThreeBandFilter.setSpan, SimpleThreeBandFilter.setQ,
      SimpleThreeBandFilter.updateFrequencies, SimpleThreeBandFilter.updateQ]

/-- C9 counterexample: a setter called after `dispose` still mutates the
stored options, an effect observable through the getter: after
`dispose(); setCenter(123)` the getter returns `123`, no longer the
pre-call value `600`. -/
theorem c9_counterexample :
    ThreeSistersSVF.center
      (ThreeSistersSVF.setCenter (ThreeSistersSVF.dispose readyFacade).1 123).1 = 123 ∧
    ThreeSistersSVF.center (ThreeSistersSVF.dispose readyFacade).1 = 600 ∧
    ((123 : ℚ) ≠ 600) := by
  refine ⟨rfl, rfl, ?_⟩
  norm_num

/-- C9 (amended): after `dispose`, every setter still runs without
throwing and posts no message to the audio processor (the worklet node
is null), but it does retain its one observable effect on the instance:
the stored option value changes and the getter reflects it. -/
theorem c9_post_dispose_amended (f : Facade) (v : ℚ) :
    (ThreeSistersSVF.dispose f).1.workletNode = false ∧
    (ThreeSistersSVF.setCenter (ThreeSistersSVF.dispose f).1 v).2 = [] ∧
    (ThreeSistersSVF.setSpan (ThreeSistersSVF.dispose f).1 v).2 = [] ∧
    (ThreeSistersSVF.setQ (ThreeSistersSVF.dispose f).1 v).2 = [] ∧
    (ThreeSistersSVF.setFeedback (ThreeSistersSVF.dispose f).1 v).2 = [] ∧
    ThreeSistersSVF.center
      (ThreeSistersSVF.setCenter (ThreeSistersSVF.dispose f).1 v).1 = v ∧
    ThreeSistersSVF.span
      (ThreeSistersSVF.setSpan (ThreeSistersSVF.dispose f).1 v).1 = v ∧
    ThreeSistersSVF.q
      (ThreeSistersSVF.setQ (ThreeSistersSVF.dispose f).1 v).1 = v ∧
    ThreeSistersSVF.feedback
      (ThreeSistersSVF.setFeedback (ThreeSistersSVF.dispose f).1 v).1 = v := by
  by_cases h : f.workletNode <;>
    simp [ThreeSistersSVF.dispose, ThreeSistersSVF.setCenter,
      ThreeSistersSVF.setSpan, ThreeSistersSVF.setQ,
      ThreeSistersSVF.setFeedback, ThreeSistersSVF.center,
      ThreeSistersSVF.span, ThreeSistersSVF.q, ThreeSistersSVF.feedback, h]

/-- C10: `process` never reads its `parameters` argument — with identical
state and input, any two values of the k-rate parameter record produce
identical output and identical resulting state — and all four declared
descriptors are k-rate. -/
theorem c10_process_ignores_parameters (sinPi : ℝ → ℝ) (s : PState ℝ)
    (input : Option (List (List ℝ))) (p1 p2 : Params ℝ) :
    process sinPi s input p1 = process sinPi s input p2 ∧
    (parameterDescriptors.all fun d => d.automationRate = "k-rate") = true :=
  ⟨rfl, rfl⟩

/-- C8: evaluation of the real-time core at a failing input for the
stability claim.  With feedback = 0, q = 0.5 (within the claimed
`q ≥ 0.5`), centre 8000 Hz at sample rate 48000 (inside the clamped band
range, where `alpha1 = 2 * sin(pi / 6) = 1` exactly), one silent
4-sample block drives each band's s1 accumulator from 1 through
-1, 2, -3 to 5: the state grows (Fibonacci-like, without bound under
repetition) instead of monotonically decaying toward 0. -/
theorem c8_silent_input_state_growth :
    c8State.bands.lowS1 = 1 ∧
    (process mathSinPi c8State (some [[0, 0, 0, 0]])
        ⟨600, 300, 8, 1 / 20⟩).2.1 = [-1, 2, -3, 5] ∧
    (process mathSinPi c8State (some [[0, 0, 0, 0]])
        ⟨600, 300, 8, 1 / 20⟩).1.bands.lowS1 = 5 ∧
    ¬(|(5 : ℝ)| ≤ |(1 : ℝ)|) := by
  have hc8 : c8State =
      { bands := ⟨1, 0, 1, 0, 1, 0⟩, lowAlpha1 := 0, centreAlpha1 := 0,
        highAlpha1 := 0, alpha2 := 2, feedback := 0, span := 0,
        centreFreq := 8000, sampleRate := 48000, recalc := true } := by
    simp [c8State, onMessage, initState, max_def]
    norm_num
  have hsin : mathSinPi ((1 : ℝ) / 6) = 1 / 2 := by
    have h7 : Real.pi * ((1 : ℝ) / 6) = Real.pi / 6 := by ring
    simp only [mathSinPi, h7, Real.sin_pi_div_six]
  refine ⟨by rw [hc8], ?_, ?_, by norm_num⟩ <;>
    norm_num [hc8, process, updateCoefficients, bandFreqs, runSamples,
      sampleStep, min_def, max_def, hsin]

end Blokken5
